import Mathlib

/-!
# Verification of the host-side scheduling / flow-control core of
# `src/public/main_webworkers.js` (rustico web front-end)

Shallow embedding of the host ("main") context of the web front-end:
the global counters, the worker message handler, the frame scheduler,
the render loop, the audio backpressure gate and the rpc call channel.
JavaScript numbers holding these counters are modelled as `Int`
(all arithmetic performed on them in the source is integer-valued and
far below 2^53, so no overflow/precision modelling is needed); buffers
are modelled as lists whose contents are opaque bytes/samples.
-/

namespace Rustico

/-- A JavaScript value as it matters to this code: the only operation the
source performs on an untyped payload is the truthiness test of
`if (data.error)`.  Numbers appearing in these payloads are integers. -/
inductive JSVal where
  | undefined : JSVal
  | null : JSVal
  | bool (b : Bool) : JSVal
  | num (n : Int) : JSVal
  | str (s : String) : JSVal
  | obj : JSVal
deriving DecidableEq, Repr

/-- JavaScript truthiness for `JSVal` (`undefined`, `null`, `false`, `0`
and the empty string are falsy; objects are always truthy). -/
def JSVal.truthy : JSVal → Bool
  | JSVal.undefined => false
  | JSVal.null => false
  | JSVal.bool b => b
  | JSVal.num n => n != 0
  | JSVal.str s => s != ""
  | JSVal.obj => true

/-- Reading a possibly-absent object field: an absent field reads as
`undefined` in JavaScript. -/
def fieldVal : Option JSVal → JSVal
  | some v => v
  | none => JSVal.undefined

/-- The global mutable state of the host context
(`src/public/main_webworkers.js` lines 3-7):
`g_pending_frames`, `g_frames_since_last_fps_count`, `g_game_pixels`
(the single-slot frame sink, `null` when empty) and
`g_audio_samples_buffered`. -/
structure HostState where
  g_pending_frames : Int
  g_frames_since_last_fps_count : Int
  g_game_pixels : Option (List Nat)
  g_audio_samples_buffered : Int
deriving DecidableEq, Repr

/-- The initial global state (all counters `0`, frame sink `null`). -/
def initHostState : HostState :=
  { g_pending_frames := 0
    g_frames_since_last_fps_count := 0
    g_game_pixels := none
    g_audio_samples_buffered := 0 }

/-- Observable actions of the host code, logged in execution order.
State-changing statements on the globals are logged alongside outbound
messages so that the order of effects inside a handler is a provable
property. -/
inductive Effect where
  /-- `g_game_pixels = e.data.image_buffer;` -/
  | storePixels (image_buffer : List Nat) : Effect
  /-- `g_pending_frames -= 1;` -/
  | decPendingFrames : Effect
  /-- `g_frames_since_last_fps_count += 1;` -/
  | incFpsAccumulator : Effect
  /-- entry into the audio backpressure gate (the `if` of lines 37-42)
  with the delivered batch -/
  | gateAudio (audio_buffer : List Nat) : Effect
  /-- `g_nes_audio_node.port.postMessage({"type": "samples", ...})` -/
  | postSamples (audio_buffer : List Nat) : Effect
  /-- `console.log("Audio overrun; are we going too fast? ...")` -/
  | logOverrun : Effect
  /-- `worker.postMessage({"type": "requestFrame"})` -/
  | postRequestFrame : Effect
  /-- `ctx.putImageData(image_data, 0, 0)` in `renderLoop`: the frame
  built from this pixel buffer is presented on the canvas -/
  | presentFrame (image_buffer : List Nat) : Effect
deriving DecidableEq, Repr

/-- The audio backpressure gate: lines 37-42 of the `deliverFrame`
branch of `worker.onmessage`.
```js
if (g_audio_samples_buffered < 8192) {
  g_nes_audio_node.port.postMessage({"type": "samples", "samples": e.data.audio_buffer});
  g_audio_samples_buffered += e.data.audio_buffer.length;
} else {
  console.log("Audio overrun; are we going too fast? Samples dropped.");
}
``` -/
def audio_gate (s : HostState) (audio_buffer : List Nat) :
    HostState × List Effect :=
  if s.g_audio_samples_buffered < 8192 then
    ({ s with g_audio_samples_buffered :=
        s.g_audio_samples_buffered + (audio_buffer.length : Int) },
     [Effect.postSamples audio_buffer])
  else
    (s, [Effect.logOverrun])

/-- The `deliverFrame` branch of `worker.onmessage` (lines 32-43):
```js
g_game_pixels = e.data.image_buffer;
g_pending_frames -= 1;
g_frames_since_last_fps_count += 1;
if (g_audio_samples_buffered < 8192) { ... } else { ... }
```
Each statement's state update is paired with its logged effect, in
source order; the trailing `if` is `audio_gate`. -/
def onmessage_deliverFrame (s0 : HostState)
    (image_buffer audio_buffer : List Nat) : HostState × List Effect :=
  let s1 := { s0 with g_game_pixels := some image_buffer }
  let log1 := [Effect.storePixels image_buffer]
  let s2 := { s1 with g_pending_frames := s1.g_pending_frames - 1 }
  let log2 := log1 ++ [Effect.decPendingFrames]
  let s3 := { s2 with g_frames_since_last_fps_count :=
      s2.g_frames_since_last_fps_count + 1 }
  let log3 := log2 ++ [Effect.incFpsAccumulator]
  let gate := audio_gate s3 audio_buffer
  (gate.1, log3 ++ Effect.gateAudio audio_buffer :: gate.2)

/-- `schedule_frames_at_top_speed` (lines 130-135):
```js
if (g_pending_frames < 10) {
  worker.postMessage({"type": "requestFrame"});
  g_pending_frames += 1;
}
``` -/
def schedule_frames_at_top_speed (s : HostState) : HostState × List Effect :=
  if s.g_pending_frames < 10 then
    ({ s with g_pending_frames := s.g_pending_frames + 1 },
     [Effect.postRequestFrame])
  else
    (s, [])

/-- Inbound messages on `g_nes_audio_node.port`. -/
inductive AudioMsg where
  | samplesPlayed (count : Int) : AudioMsg
  | other : AudioMsg
deriving DecidableEq, Repr

/-- `handle_audio_message` (lines 62-66):
```js
if (e.data.type == "samplesPlayed") {
  g_audio_samples_buffered -= e.data.count;
}
``` -/
def handle_audio_message (s : HostState) (m : AudioMsg) : HostState :=
  match m with
  | AudioMsg.samplesPlayed count =>
      { s with g_audio_samples_buffered := s.g_audio_samples_buffered - count }
  | AudioMsg.other => s

/-- One invocation of `renderLoop` (lines 147-158), minus the
unconditional self-rescheduling `requestAnimationFrame(renderLoop)`
(the recurrence itself is modelled by the `render` event occurring
repeatedly in a trace):
```js
if (g_game_pixels != null) {
  ... ctx.putImageData(image_data, 0, 0); ...
  g_game_pixels = null;
}
``` -/
def renderLoop (s : HostState) : HostState × List Effect :=
  match s.g_game_pixels with
  | some buf => ({ s with g_game_pixels := none }, [Effect.presentFrame buf])
  | none => (s, [])

/-- The callbacks that can fire in the host context, each interleaved
atomically by the event loop: a scheduler timer tick, a `deliverFrame`
push from the worker, a render-loop invocation, and a message from the
audio node. -/
inductive HostEvent where
  | tick : HostEvent
  | deliverFrame (image_buffer audio_buffer : List Nat) : HostEvent
  | render : HostEvent
  | audio (m : AudioMsg) : HostEvent
deriving DecidableEq, Repr

/-- Dispatch of one host-context callback. -/
def host_step (s : HostState) : HostEvent → HostState × List Effect
  | HostEvent.tick => schedule_frames_at_top_speed s
  | HostEvent.deliverFrame image_buffer audio_buffer =>
      onmessage_deliverFrame s image_buffer audio_buffer
  | HostEvent.render => renderLoop s
  | HostEvent.audio m => (handle_audio_message s m, [])

/-- Run a sequence of host-context callbacks, concatenating the logs. -/
def host_run (s : HostState) : List HostEvent → HostState × List Effect
  | [] => (s, [])
  | e :: evs =>
      let r1 := host_step s e
      let r2 := host_run r1.1 evs
      (r2.1, r1.2 ++ r2.2)

/-- The payload of a reply arriving on a call's private channel port:
`{error?: <any>, result?: <any>}`.  `none` models an absent field. -/
structure Reply where
  error : Option JSVal
  result : Option JSVal
deriving DecidableEq, Repr

/-- The outcome of settling one call's promise. -/
inductive RpcOutcome where
  | resolve (v : JSVal) : RpcOutcome
  | reject (v : JSVal) : RpcOutcome
deriving DecidableEq, Repr

/-- The reply handler installed by `rpc` on `channel.port1` (lines 17-23):
```js
channel.port1.onmessage = ({data}) => {
  if (data.error) {
    reject(data.error);
  } else {
    resolve(data.result);
  }
};
``` -/
def rpc_onreply (data : Reply) : RpcOutcome :=
  if (fieldVal data.error).truthy then
    RpcOutcome.reject (fieldVal data.error)
  else
    RpcOutcome.resolve (fieldVal data.result)

/-- The state of one outstanding call's promise. -/
inductive CallStatus where
  | callPending : CallStatus
  | resolved (v : JSVal) : CallStatus
  | rejected (v : JSVal) : CallStatus
deriving DecidableEq, Repr

/-- The call channel's state: each `rpc` call allocates a fresh
`MessageChannel`; channels are identified by allocation order.  Each
entry records the function name of the request posted with that
channel's `port2` and the status of the caller's promise. -/
structure RpcState where
  nextChannel : Nat
  calls : List (Nat × String × CallStatus)
deriving DecidableEq, Repr

/-- The call channel with no call ever issued. -/
def initRpcState : RpcState := { nextChannel := 0, calls := [] }

/-- `rpc(task, args)` (lines 14-26): allocate a fresh private channel,
install the reply handler on its `port1`, post
`{"type": "rpc", "func": task, "args": args}` transferring `port2`,
and leave the caller's promise pending.  Returns the new state and the
fresh channel's identifier. -/
def rpc (st : RpcState) (task : String) : RpcState × Nat :=
  ({ nextChannel := st.nextChannel + 1,
     calls := st.calls ++ [(st.nextChannel, task, CallStatus.callPending)] },
   st.nextChannel)

/-- Settling a promise: `resolve`/`reject` only act on a still-pending
promise (a settled JavaScript promise ignores further calls). -/
def settle (c : CallStatus) (data : Reply) : CallStatus :=
  match c with
  | CallStatus.callPending =>
      match rpc_onreply data with
      | RpcOutcome.resolve v => CallStatus.resolved v
      | RpcOutcome.reject v => CallStatus.rejected v
  | c => c

/-- Arrival of a reply on the private channel `ch`: `MessageChannel`
delivers it to the handler installed on that channel's `port1` and to
no other.  Entries keyed by other channels are untouched. -/
def deliver_reply (st : RpcState) (ch : Nat) (data : Reply) : RpcState :=
  { st with calls := st.calls.map fun p =>
      if p.1 = ch then (p.1, p.2.1, settle p.2.2 data) else p }

/-- Status lookup by channel identifier. -/
def callStatusOf (st : RpcState) (ch : Nat) : Option CallStatus :=
  (st.calls.find? fun p => p.1 = ch).map fun p => p.2.2

/-- Whole-system state for the frame-credit invariant: the host's
globals plus the number of `requestFrame` messages the host has posted
to the worker that the worker has not yet answered. -/
structure SysState where
  host : HostState
  outstanding : Nat
deriving DecidableEq, Repr

/-- The initial whole-system state. -/
def initSysState : SysState := { host := initHostState, outstanding := 0 }

/-- A scheduler tick at system level: exactly when the host posts
`{"type": "requestFrame"}`, one more request is outstanding at the
worker. -/
def sysTick (s : SysState) : SysState :=
  let r := schedule_frames_at_top_speed s.host
  { host := r.1,
    outstanding :=
      if Effect.postRequestFrame ∈ r.2 then s.outstanding + 1
      else s.outstanding }

/-- A frame delivery at system level: the worker answers one
outstanding request, and the host runs the `deliverFrame` handler. -/
def sysDeliver (s : SysState) (image_buffer audio_buffer : List Nat) :
    SysState :=
  { host := (onmessage_deliverFrame s.host image_buffer audio_buffer).1,
    outstanding := s.outstanding - 1 }

/-- Modelled from the spec: the producer (`emu_worker.js`, not under
`src/`) is an opaque worker that answers each `{"type": "requestFrame"}`
push with exactly one `deliverFrame` push (§2, §5, §6 of the spec:
frame requests are "in-flight" until delivered; a delivery is the
answer to a dispatched request).  Hence a `deliverFrame` can only occur
while at least one request is outstanding.  `ReachableSys` is the set
of states reachable from startup by scheduler ticks and such paired
frame deliveries. -/
inductive ReachableSys : SysState → Prop where
  | start : ReachableSys initSysState
  | tick (s : SysState) (h : ReachableSys s) : ReachableSys (sysTick s)
  | deliver (s : SysState) (image_buffer audio_buffer : List Nat)
      (h : ReachableSys s) (hout : 0 < s.outstanding) :
      ReachableSys (sysDeliver s image_buffer audio_buffer)

/-! ## Helper lemmas -/

/-- The combined update performed by the three unconditional statements
at the head of the `deliverFrame` handler. -/
def deliverFrame_update (s : HostState) (img : List Nat) : HostState :=
  { s with
    g_game_pixels := some img
    g_pending_frames := s.g_pending_frames - 1
    g_frames_since_last_fps_count := s.g_frames_since_last_fps_count + 1 }

/-- Unfolding of the `deliverFrame` handler: the three unconditional
statements followed by the audio gate, with the logged effects in
statement order. -/
lemma onmessage_deliverFrame_eq (s : HostState) (img aud : List Nat) :
    onmessage_deliverFrame s img aud =
      ((audio_gate (deliverFrame_update s img) aud).1,
       Effect.storePixels img :: Effect.decPendingFrames ::
       Effect.incFpsAccumulator :: Effect.gateAudio aud ::
       (audio_gate (deliverFrame_update s img) aud).2) := rfl

/-- The audio gate never touches the frame sink. -/
lemma audio_gate_pixels (s : HostState) (b : List Nat) :
    (audio_gate s b).1.g_game_pixels = s.g_game_pixels := by
  unfold audio_gate; split <;> rfl

/-- The audio gate never touches the frame credit counter. -/
lemma audio_gate_pending (s : HostState) (b : List Nat) :
    (audio_gate s b).1.g_pending_frames = s.g_pending_frames := by
  unfold audio_gate; split <;> rfl

/-- The audio gate never touches the FPS accumulator. -/
lemma audio_gate_fps (s : HostState) (b : List Nat) :
    (audio_gate s b).1.g_frames_since_last_fps_count
      = s.g_frames_since_last_fps_count := by
  unfold audio_gate; split <;> rfl

/-- The audio gate logs either a forward or a drop, nothing else. -/
lemma audio_gate_log (s : HostState) (b : List Nat) :
    (audio_gate s b).2 = [Effect.postSamples b] ∨
      (audio_gate s b).2 = [Effect.logOverrun] := by
  unfold audio_gate; split
  · exact Or.inl rfl
  · exact Or.inr rfl

/-- The `deliverFrame` handler decrements `g_pending_frames` by one,
whatever the rest of the state. -/
lemma onmessage_deliverFrame_pending (s : HostState) (img aud : List Nat) :
    (onmessage_deliverFrame s img aud).1.g_pending_frames
      = s.g_pending_frames - 1 := by
  rw [onmessage_deliverFrame_eq, audio_gate_pending]
  rfl

/-! ## Claims -/

/-- C2: on receipt of an audio sample batch of length L, if
`samplesBuffered < 8192` at delivery time the whole batch is forwarded
to the audio sink and `samplesBuffered` increases by exactly L;
otherwise the whole batch is dropped (nothing queued, nothing partially
forwarded) and `samplesBuffered` is unchanged. -/
theorem C2_audio_gate_forward_or_drop (s : HostState) (b : List Nat) :
    (s.g_audio_samples_buffered < 8192 →
      audio_gate s b
        = ({ s with g_audio_samples_buffered :=
              s.g_audio_samples_buffered + (b.length : Int) },
           [Effect.postSamples b])) ∧
    (¬ s.g_audio_samples_buffered < 8192 →
      audio_gate s b = (s, [Effect.logOverrun])) := by
  unfold audio_gate
  constructor
  · intro h; rw [if_pos h]
  · intro h; rw [if_neg h]

/-- C2 witness: with 1000 samples buffered, a batch of length 3 is
forwarded and the counter becomes 1003; with 9000 buffered, the same
batch is dropped and the counter stays 9000. -/
theorem C2_witness :
    audio_gate { initHostState with g_audio_samples_buffered := 1000 }
        [0, 0, 0]
      = ({ initHostState with g_audio_samples_buffered := 1003 },
         [Effect.postSamples [0, 0, 0]]) ∧
    audio_gate { initHostState with g_audio_samples_buffered := 9000 }
        [0, 0, 0]
      = ({ initHostState with g_audio_samples_buffered := 9000 },
         [Effect.logOverrun]) := by
  constructor
  · have h := (C2_audio_gate_forward_or_drop
      { initHostState with g_audio_samples_buffered := 1000 }
      [0, 0, 0]).1 (by decide)
    rw [h]; decide
  · exact (C2_audio_gate_forward_or_drop
      { initHostState with g_audio_samples_buffered := 9000 }
      [0, 0, 0]).2 (by decide)

/-- C3 counterexample: with `samplesBuffered = 8000` and an incoming
batch of length 300 we have `8000 + 300 ≥ 8192`, yet the code forwards
the batch and the counter becomes 8300 — the claim says it is dropped
and stays 8000. -/
theorem C3_counterexample :
    (8192 : Int) ≤ 8000 + ((List.replicate 300 0).length : Int) ∧
    (audio_gate { initHostState with g_audio_samples_buffered := 8000 }
        (List.replicate 300 0)).1.g_audio_samples_buffered = 8300 ∧
    (audio_gate { initHostState with g_audio_samples_buffered := 8000 }
        (List.replicate 300 0)).2
      = [Effect.postSamples (List.replicate 300 0)] := by
  refine ⟨?_, ?_, ?_⟩
  · rw [List.length_replicate]; norm_num
  · unfold audio_gate
    rw [if_pos (by decide), List.length_replicate]
    norm_num
  · unfold audio_gate
    rw [if_pos (by decide)]

/-- C3 (amended): the gate's drop condition tests only the pre-delivery
occupancy against the threshold, ignoring the incoming length: the
batch is dropped with `samplesBuffered` unchanged iff
`samplesBuffered ≥ 8192` at delivery time; whenever
`samplesBuffered < 8192` the batch is forwarded and the counter grows
by exactly L, even if `samplesBuffered + L ≥ 8192` (so with
`samplesBuffered = 8000` and a batch of length 300, the batch is
forwarded and the counter becomes 8300). -/
theorem C3_drop_condition (s : HostState) (b : List Nat) :
    (8192 ≤ s.g_audio_samples_buffered →
      audio_gate s b = (s, [Effect.logOverrun])) ∧
    (s.g_audio_samples_buffered < 8192 →
      (audio_gate s b).1.g_audio_samples_buffered
          = s.g_audio_samples_buffered + (b.length : Int) ∧
      (audio_gate s b).2 = [Effect.postSamples b]) := by
  unfold audio_gate
  constructor
  · intro h; rw [if_neg (by omega)]
  · intro h; rw [if_pos h]; exact ⟨rfl, rfl⟩

/-- C3 witness: the dropped case at occupancy 9999 and the forwarded
case at occupancy 8000 with a length-300 batch crossing the
threshold. -/
theorem C3_witness :
    audio_gate { initHostState with g_audio_samples_buffered := 9999 } [7]
      = ({ initHostState with g_audio_samples_buffered := 9999 },
         [Effect.logOverrun]) ∧
    (audio_gate { initHostState with g_audio_samples_buffered := 8000 }
        (List.replicate 300 0)).1.g_audio_samples_buffered = 8300 := by
  constructor
  · exact (C3_drop_condition
      { initHostState with g_audio_samples_buffered := 9999 } [7]).1 (by decide)
  · have h := (C3_drop_condition
      { initHostState with g_audio_samples_buffered := 8000 }
      (List.replicate 300 0)).2 (by decide)
    rw [h.1, List.length_replicate]; norm_num

/-- C4 counterexample: from `samplesBuffered = 0`, a `samplesPlayed`
acknowledgment of count 5 drives the counter to −5 — the claim says an
acknowledgment never takes it below 0. -/
theorem C4_counterexample :
    (handle_audio_message initHostState
        (AudioMsg.samplesPlayed 5)).g_audio_samples_buffered = -5 ∧
    (handle_audio_message initHostState
        (AudioMsg.samplesPlayed 5)).g_audio_samples_buffered < 0 := by
  decide

/-- C4 (amended): a `samplesPlayed` acknowledgment of count C decreases
`samplesBuffered` by exactly C with no flooring applied — the counter
can go below 0 when C exceeds its current value; e.g. from
`samplesBuffered = 1500` an acknowledgment of count 400 yields 1100. -/
theorem C4_ack_subtracts_exactly :
    (∀ (s : HostState) (c : Int),
      (handle_audio_message s
          (AudioMsg.samplesPlayed c)).g_audio_samples_buffered
        = s.g_audio_samples_buffered - c) ∧
    (handle_audio_message
        { initHostState with g_audio_samples_buffered := 1500 }
        (AudioMsg.samplesPlayed 400)).g_audio_samples_buffered = 1100 := by
  constructor
  · intro s c; rfl
  · decide

/-- C10: the `deliverFrame` handler decrements `g_pending_frames` by
exactly 1 unconditionally, with no guard against underflow: from any
state with `g_pending_frames = 0`, processing an (unpaired)
`deliverFrame` message yields `g_pending_frames = -1`. -/
theorem C10_deliver_decrements_unguarded :
    (∀ (s : HostState) (img aud : List Nat),
      (onmessage_deliverFrame s img aud).1.g_pending_frames
        = s.g_pending_frames - 1) ∧
    (∀ (s : HostState) (img aud : List Nat), s.g_pending_frames = 0 →
      (onmessage_deliverFrame s img aud).1.g_pending_frames = -1) := by
  refine ⟨fun s img aud => onmessage_deliverFrame_pending s img aud, ?_⟩
  intro s img aud h
  rw [onmessage_deliverFrame_pending, h]
  decide

/-- C10 witness: from the initial state (`g_pending_frames = 0`), one
unpaired `deliverFrame` leaves the counter at −1. -/
theorem C10_witness :
    (onmessage_deliverFrame initHostState [1] [2]).1.g_pending_frames
      = -1 :=
  C10_deliver_decrements_unguarded.2 initHostState [1] [2] rfl

/-- C5: on each scheduler tick, if `g_pending_frames < 10` exactly one
`requestFrame` message is posted and the counter is incremented by 1,
otherwise nothing is posted and the state is unchanged; from the
initial state, 12 ticks with no deliveries post exactly 10 requests,
leave the counter at 10, and ticks 11 and 12 post nothing. -/
theorem C5_scheduler_tick_behavior :
    (∀ s : HostState, s.g_pending_frames < 10 →
        schedule_frames_at_top_speed s
          = ({ s with g_pending_frames := s.g_pending_frames + 1 },
             [Effect.postRequestFrame])) ∧
    (∀ s : HostState, ¬ s.g_pending_frames < 10 →
        schedule_frames_at_top_speed s = (s, [])) ∧
    (host_run initHostState
        (List.replicate 12 HostEvent.tick)).1.g_pending_frames = 10 ∧
    (host_run initHostState (List.replicate 12 HostEvent.tick)).2
      = List.replicate 10 Effect.postRequestFrame ∧
    (host_step (host_run initHostState
        (List.replicate 10 HostEvent.tick)).1 HostEvent.tick).2 = [] ∧
    (host_step (host_run initHostState
        (List.replicate 11 HostEvent.tick)).1 HostEvent.tick).2 = [] := by
  refine ⟨?_, ?_, by decide, by decide, by decide, by decide⟩
  · intro s h; unfold schedule_frames_at_top_speed; rw [if_pos h]
  · intro s h; unfold schedule_frames_at_top_speed; rw [if_neg h]

/-- C5 witness: one tick from the initial state posts one request and
moves the counter from 0 to 1. -/
theorem C5_witness :
    schedule_frames_at_top_speed initHostState
      = ({ initHostState with g_pending_frames := 1 },
         [Effect.postRequestFrame]) := by
  have h := C5_scheduler_tick_behavior.1 initHostState (by decide)
  exact h

/-- Handler log on `deliverFrame` never presents a frame. -/
lemma deliver_log_no_present (s : HostState) (img aud b1 : List Nat) :
    Effect.presentFrame b1 ∉ (onmessage_deliverFrame s img aud).2 := by
  rw [onmessage_deliverFrame_eq]
  rcases audio_gate_log (deliverFrame_update s img) aud with hl | hl <;>
    rw [hl] <;> simp

/-- After `deliverFrame`, the frame sink holds exactly the delivered
pixel buffer, whatever it held before. -/
lemma deliver_pixels (s : HostState) (img aud : List Nat) :
    (onmessage_deliverFrame s img aud).1.g_game_pixels = some img := by
  rw [onmessage_deliverFrame_eq, audio_gate_pixels]; rfl

/-- C8: processing a `deliverFrame` message performs, in this order:
(1) store the pixel buffer into the frame sink, unconditionally
overwriting any frame not yet rendered; (2) decrement
`g_pending_frames` by 1; (3) increment the FPS accumulator by 1;
(4) hand the audio batch to the audio backpressure gate. -/
theorem C8_deliver_effect_order (s : HostState) (img aud : List Nat) :
    (onmessage_deliverFrame s img aud).2
      = Effect.storePixels img :: Effect.decPendingFrames ::
        Effect.incFpsAccumulator :: Effect.gateAudio aud ::
        (audio_gate (deliverFrame_update s img) aud).2 ∧
    (onmessage_deliverFrame s img aud).1
      = (audio_gate (deliverFrame_update s img) aud).1 ∧
    (deliverFrame_update s img).g_game_pixels = some img ∧
    (deliverFrame_update s img).g_pending_frames
      = s.g_pending_frames - 1 ∧
    (deliverFrame_update s img).g_frames_since_last_fps_count
      = s.g_frames_since_last_fps_count + 1 ∧
    (onmessage_deliverFrame s img aud).1.g_game_pixels = some img := by
  exact ⟨rfl, rfl, rfl, rfl, rfl, deliver_pixels s img aud⟩

/-- C6 counterexample: the reply `{error: 0, result: "ok"}` carries an
`error` field, yet the call succeeds with `"ok"` instead of failing
with `0` — `if (data.error)` tests truthiness, not field presence. -/
theorem C6_counterexample :
    (Reply.mk (some (JSVal.num 0)) (some (JSVal.str "ok"))).error.isSome
        = true ∧
    rpc_onreply (Reply.mk (some (JSVal.num 0)) (some (JSVal.str "ok")))
      = RpcOutcome.resolve (JSVal.str "ok") ∧
    rpc_onreply (Reply.mk (some (JSVal.num 0)) (some (JSVal.str "ok")))
      ≠ RpcOutcome.reject (JSVal.num 0) := by
  refine ⟨rfl, rfl, ?_⟩
  intro hcontra
  rw [show rpc_onreply (Reply.mk (some (JSVal.num 0))
      (some (JSVal.str "ok"))) = RpcOutcome.resolve (JSVal.str "ok")
    from rfl] at hcontra
  exact RpcOutcome.noConfusion hcontra

/-- C6 (amended): when the paired reply arrives, if its `error` field
holds a truthy value the call fails with that value; otherwise (the
field absent or holding a falsy value such as `0`, `""`, `null` or
`false`) the call succeeds with the reply's `result` value. -/
theorem C6_reply_truthiness (data : Reply) :
    ((fieldVal data.error).truthy = true →
        rpc_onreply data = RpcOutcome.reject (fieldVal data.error)) ∧
    ((fieldVal data.error).truthy = false →
        rpc_onreply data = RpcOutcome.resolve (fieldVal data.result)) := by
  unfold rpc_onreply
  constructor
  · intro h; rw [if_pos h]
  · intro h; rw [if_neg (by simp [h])]

/-- C6 witness: a truthy error `"boom"` rejects the call with
`"boom"`; an absent error resolves the call with the result `7`. -/
theorem C6_witness :
    rpc_onreply (Reply.mk (some (JSVal.str "boom")) none)
      = RpcOutcome.reject (JSVal.str "boom") ∧
    rpc_onreply (Reply.mk none (some (JSVal.num 7)))
      = RpcOutcome.resolve (JSVal.num 7) := by
  constructor
  · exact (C6_reply_truthiness
      (Reply.mk (some (JSVal.str "boom")) none)).1 (by decide)
  · exact (C6_reply_truthiness
      (Reply.mk none (some (JSVal.num 7)))).2 rfl

/-- A reply delivered on channel `ch` leaves every entry keyed by a
different channel untouched (list-level statement). -/
lemma deliver_reply_find_aux (l : List (Nat × String × CallStatus))
    (ch ch' : Nat) (data : Reply) (h : ch' ≠ ch) :
    ((l.map fun p =>
        if p.1 = ch then (p.1, p.2.1, settle p.2.2 data) else p).find?
      fun p => p.1 = ch')
      = l.find? fun p => p.1 = ch' := by
  induction l with
  | nil => rfl
  | cons p l ih =>
      by_cases hp1 : p.1 = ch'
      · have hpc : p.1 ≠ ch := by rw [hp1]; exact h
        simp [List.find?_cons, hpc, hp1, h]
      · by_cases hpc : p.1 = ch
        · have h2 : ch ≠ ch' := fun hc => h hc.symm
          simp [List.find?_cons, hpc, hp1, h2, ih]
        · simp [List.find?_cons, hpc, hp1, ih]

/-- A reply delivered on channel `ch` does not change the status of a
call on any other channel. -/
lemma callStatusOf_deliver_reply_ne (st : RpcState) (ch : Nat)
    (data : Reply) (ch' : Nat) (h : ch' ≠ ch) :
    callStatusOf (deliver_reply st ch data) ch' = callStatusOf st ch' := by
  unfold callStatusOf deliver_reply
  rw [deliver_reply_find_aux st.calls ch ch' data h]

/-- C7: each call settles using only the payload of the unique reply
addressed to its own private channel, independent of other outstanding
calls; concretely, after issuing `call("a")` then `call("b")`, a reply
on `b`'s channel resolves `b` with its own payload while `a` remains
pending. -/
theorem C7_reply_isolation :
    (∀ (st : RpcState) (ch : Nat) (data : Reply) (ch' : Nat), ch' ≠ ch →
        callStatusOf (deliver_reply st ch data) ch'
          = callStatusOf st ch') ∧
    callStatusOf
        (deliver_reply (rpc (rpc initRpcState "a").1 "b").1
          (rpc (rpc initRpcState "a").1 "b").2
          (Reply.mk none (some (JSVal.str "vb"))))
        (rpc (rpc initRpcState "a").1 "b").2
      = some (CallStatus.resolved (JSVal.str "vb")) ∧
    callStatusOf
        (deliver_reply (rpc (rpc initRpcState "a").1 "b").1
          (rpc (rpc initRpcState "a").1 "b").2
          (Reply.mk none (some (JSVal.str "vb"))))
        (rpc initRpcState "a").2
      = some CallStatus.callPending := by
  exact ⟨callStatusOf_deliver_reply_ne, rfl, rfl⟩

/-- C7 witness: a reply on channel 5 leaves the status of channel 3
unchanged in the empty call table. -/
theorem C7_witness :
    callStatusOf (deliver_reply initRpcState 5 (Reply.mk none none)) 3
      = callStatusOf initRpcState 3 :=
  C7_reply_isolation.1 initRpcState 5 (Reply.mk none none) 3 (by decide)

/-- One host callback that is not a delivery of pixel buffer `b1`
neither presents `b1` nor leaves `b1` in the frame sink, provided the
sink did not already hold `b1`. -/
lemma host_step_no_present (s : HostState) (e : HostEvent) (b1 : List Nat)
    (hs : s.g_game_pixels ≠ some b1)
    (he : ∀ aud, e ≠ HostEvent.deliverFrame b1 aud) :
    Effect.presentFrame b1 ∉ (host_step s e).2 ∧
    (host_step s e).1.g_game_pixels ≠ some b1 := by
  cases e with
  | tick =>
      show Effect.presentFrame b1 ∉ (schedule_frames_at_top_speed s).2 ∧
        (schedule_frames_at_top_speed s).1.g_game_pixels ≠ some b1
      unfold schedule_frames_at_top_speed
      split <;> exact ⟨by simp, hs⟩
  | deliverFrame img aud =>
      have himg : img ≠ b1 := by
        intro hcontra
        exact (he aud) (by rw [hcontra])
      refine ⟨deliver_log_no_present s img aud b1, ?_⟩
      show (onmessage_deliverFrame s img aud).1.g_game_pixels ≠ some b1
      rw [deliver_pixels]
      exact fun hc => himg (Option.some.inj hc)
  | render =>
      show Effect.presentFrame b1 ∉ (renderLoop s).2 ∧
        (renderLoop s).1.g_game_pixels ≠ some b1
      unfold renderLoop
      split
      · next buf heq =>
          have hbuf : buf ≠ b1 := by
            intro hc
            exact hs (by rw [heq, hc])
          have hbuf' : b1 ≠ buf := fun hc => hbuf hc.symm
          exact ⟨by simp [hbuf'], by simp⟩
      · next heq => exact ⟨by simp, hs⟩
  | audio m =>
      show Effect.presentFrame b1 ∉
          ((handle_audio_message s m, ([] : List Effect))).2 ∧
        (handle_audio_message s m).g_game_pixels ≠ some b1
      cases m <;> exact ⟨by simp, hs⟩

/-- Along any run whose events never deliver pixel buffer `b1`,
starting from a sink not holding `b1`, the frame built from `b1` is
never presented. -/
lemma host_run_no_present (s : HostState) (evs : List HostEvent)
    (b1 : List Nat) (hs : s.g_game_pixels ≠ some b1)
    (hevs : ∀ aud, HostEvent.deliverFrame b1 aud ∉ evs) :
    Effect.presentFrame b1 ∉ (host_run s evs).2 := by
  induction evs generalizing s with
  | nil => simp [host_run]
  | cons e evs ih =>
      have he : ∀ aud, e ≠ HostEvent.deliverFrame b1 aud := by
        intro aud hcontra
        exact hevs aud (by rw [hcontra]; exact List.mem_cons_self _ _)
      obtain ⟨h1, h2⟩ := host_step_no_present s e b1 hs he
      have hevs' : ∀ aud, HostEvent.deliverFrame b1 aud ∉ evs :=
        fun aud hmem => hevs aud (List.mem_cons_of_mem _ hmem)
      have hrest := ih (host_step s e).1 h2 hevs'
      simp only [host_run, List.mem_append]
      intro hmem
      rcases hmem with hmem | hmem
      · exact h1 hmem
      · exact hrest hmem

/-- C9: the frame sink is a single slot, so it holds at most one
undisplayed frame; on each render-loop invocation a held frame is
presented and the slot cleared, and an empty slot causes no action; and
a frame overwritten by a later delivery before any render-loop
invocation consumes it is never presented. -/
theorem C9_latest_wins_sink :
    (∀ (s : HostState) (buf : List Nat), s.g_game_pixels = some buf →
        renderLoop s = ({ s with g_game_pixels := none },
          [Effect.presentFrame buf])) ∧
    (∀ s : HostState, s.g_game_pixels = none → renderLoop s = (s, [])) ∧
    (∀ (s : HostState) (b1 a1 b2 a2 : List Nat) (evs : List HostEvent),
        b1 ≠ b2 →
        (∀ aud, HostEvent.deliverFrame b1 aud ∉ evs) →
        Effect.presentFrame b1 ∉
          (host_run s (HostEvent.deliverFrame b1 a1 ::
              HostEvent.deliverFrame b2 a2 :: evs)).2) := by
  refine ⟨?_, ?_, ?_⟩
  · intro s buf h
    unfold renderLoop
    rw [h]
  · intro s h
    unfold renderLoop
    rw [h]
  · intro s b1 a1 b2 a2 evs hne hevs
    have hp2 : (onmessage_deliverFrame
        (onmessage_deliverFrame s b1 a1).1 b2 a2).1.g_game_pixels
        ≠ some b1 := by
      rw [deliver_pixels]
      exact fun hc => hne (Option.some.inj hc).symm
    have hrest := host_run_no_present _ evs b1 hp2 hevs
    have hl1 := deliver_log_no_present s b1 a1 b1
    have hl2 := deliver_log_no_present (onmessage_deliverFrame s b1 a1).1
      b2 a2 b1
    simp only [host_run, host_step, List.mem_append]
    intro hmem
    rcases hmem with hmem | hmem | hmem
    · exact hl1 hmem
    · exact hl2 hmem
    · exact hrest hmem

/-- C9 witness: a render invocation presents and clears a held frame;
and in the run "deliver `[1]`, deliver `[2]`, render" the overwritten
frame `[1]` is never presented. -/
theorem C9_witness :
    renderLoop { initHostState with g_game_pixels := some [1] }
      = ({ initHostState with g_game_pixels := none },
         [Effect.presentFrame [1]]) ∧
    Effect.presentFrame [1] ∉
      (host_run initHostState [HostEvent.deliverFrame [1] [],
        HostEvent.deliverFrame [2] [], HostEvent.render]).2 := by
  constructor
  · exact C9_latest_wins_sink.1
      { initHostState with g_game_pixels := some [1] } [1] rfl
  · exact C9_latest_wins_sink.2.2 initHostState [1] [] [2] []
      [HostEvent.render] (by decide) (by intro aud; simp)

/-- The inductive invariant of the paired-delivery system: the host's
credit counter exactly counts the requests outstanding at the worker,
and never exceeds the cap. -/
lemma reachable_inv (s : SysState) (h : ReachableSys s) :
    s.host.g_pending_frames = (s.outstanding : Int) ∧
    s.host.g_pending_frames ≤ 10 := by
  induction h with
  | start => exact ⟨rfl, by decide⟩
  | tick s h ih =>
      obtain ⟨h1, h2⟩ := ih
      unfold sysTick
      by_cases hp : s.host.g_pending_frames < 10
      · simp only [schedule_frames_at_top_speed, if_pos hp,
          List.mem_singleton, if_pos rfl]
        constructor
        · rw [h1]; push_cast; ring
        · omega
      · simp only [schedule_frames_at_top_speed, if_neg hp]
        simp only [List.not_mem_nil, if_neg (fun hc => hc)]
        exact ⟨h1, h2⟩
  | deliver s img aud h hout ih =>
      obtain ⟨h1, h2⟩ := ih
      unfold sysDeliver
      constructor
      · show (onmessage_deliverFrame s.host img aud).1.g_pending_frames
            = ((s.outstanding - 1 : Nat) : Int)
        rw [onmessage_deliverFrame_pending, h1]
        omega
      · show (onmessage_deliverFrame s.host img aud).1.g_pending_frames ≤ 10
        rw [onmessage_deliverFrame_pending]
        omega

/-- C1: along every sequence of scheduler ticks and paired frame
deliveries from the initial state, `g_pending_frames` stays within
`0 ≤ g_pending_frames ≤ 10`: a tick increments it only below 10, and
each delivery (answering one outstanding request) decrements it by
exactly 1. -/
theorem C1_pending_frames_bounded (s : SysState) (h : ReachableSys s) :
    0 ≤ s.host.g_pending_frames ∧ s.host.g_pending_frames ≤ 10 := by
  obtain ⟨h1, h2⟩ := reachable_inv s h
  refine ⟨?_, h2⟩
  rw [h1]
  exact Int.natCast_nonneg _

/-- C1 witness: the state after one tick from startup is reachable and
its credit counter lies within the bounds. -/
theorem C1_witness :
    0 ≤ (sysTick initSysState).host.g_pending_frames ∧
    (sysTick initSysState).host.g_pending_frames ≤ 10 :=
  C1_pending_frames_bounded (sysTick initSysState)
    (ReachableSys.tick initSysState ReachableSys.start)

end Rustico
